import Mathlib

/-!
Shallow embedding of the PaperBites client-side feed and local-persistence
subsystem: the storage hooks (`frontend/hooks/useStorage.js` and
`frontend/paperbites-frontend/hooks/useStorage.js`), the storage service
(`services/storage.js`), the catalog client (`services/api.js`) and the feed
pagination logic (`hooks/useApi.js`, `components/FullscreenFeed.js`).

JavaScript conventions used throughout the embedding:
* a JS object that may be `null`/`undefined` is an `Option`;
* the truthiness test `!video.id` on a string id is `v.id = ""`;
* `Date.now()` is passed in as an explicit `now : Nat` parameter;
* `AsyncStorage` reads are a `StorageRead` value (threw / null / raw string)
  together with a `parse` function standing for `JSON.parse`;
* mutators model the non-throwing path: the React state update and the
  subsequent `AsyncStorage.setItem` write the same list, captured by a pair
  of fields `mem` (in-memory state) and `doc` (persisted document).
-/

namespace PaperBites

/-- JavaScript `String.prototype.trim()`: the string with leading and
trailing whitespace removed, written over the character list so that it
evaluates inside the kernel. -/
def jsTrim (s : String) : String :=
  ⟨((s.data.dropWhile Char.isWhitespace).reverse.dropWhile
      Char.isWhitespace).reverse⟩

/-- A `VideoArtifact` as consumed by the collections: only the `id` key and an
opaque payload (`title` stands for the remaining read-only fields). -/
structure Video where
  id : String
  title : String
  deriving Repr, DecidableEq

/-- A watch-history entry: `{...video, watchedAt: Date.now()}`. -/
structure HistoryEntry where
  video : Video
  watchedAt : Nat
  deriving Repr, DecidableEq

/-- In-memory React state plus the persisted favorites document. -/
structure FavoritesStore where
  mem : List Video
  doc : List Video
  deriving Repr, DecidableEq

/-- In-memory React state plus the persisted watch-history document. -/
structure HistoryStore where
  mem : List HistoryEntry
  doc : List HistoryEntry
  deriving Repr, DecidableEq

/-- The flat settings record of `useAppSettings`. -/
structure Settings where
  autoplay : Bool
  darkMode : Bool
  downloadQuality : String
  pushNotifications : Bool
  deriving Repr, DecidableEq

/-- A partial settings object passed to `updateSettings`: a field that is
`none` is absent from the JS object literal, so the spread `{...settings,
...newSettings}` keeps the current value. -/
structure SettingsPatch where
  autoplay : Option Bool := none
  darkMode : Option Bool := none
  downloadQuality : Option String := none
  pushNotifications : Option Bool := none
  deriving Repr, DecidableEq

/-- Outcome of an `AsyncStorage.getItem` call: the call threw, returned
`null` (document absent), or returned a raw JSON string. -/
inductive StorageRead where
  | failure (msg : String)
  | absent
  | value (raw : String)
  deriving Repr, DecidableEq

namespace Hooks

/-! Embedding of `src/frontend/hooks/useStorage.js`. -/

/-- `addRecentSearch` (lines 42-64): `if (!searchTerm.trim()) return;` then
filter out exact matches of the raw term, prepend the raw term, `slice(0, 10)`. -/
def addRecentSearch (searchTerm : String) (recentSearches : List String) :
    List String :=
  if jsTrim searchTerm = "" then recentSearches
  else
    let filteredSearches := recentSearches.filter fun term => term ≠ searchTerm
    (searchTerm :: filteredSearches).take 10

/-- `isFavorite` (lines 117-119): `favorites.some(video => video.id === videoId)`. -/
def isFavorite (videoId : String) (favorites : List Video) : Bool :=
  favorites.any fun video => video.id = videoId

/-- `addFavorite` (lines 122-142): rejects a null video or falsy id with
`false`; returns `true` without touching anything when already favorited;
otherwise prepends and persists. -/
def addFavorite (video : Option Video) (s : FavoritesStore) :
    Bool × FavoritesStore :=
  match video with
  | none => (false, s)
  | some v =>
    if v.id = "" then (false, s)
    else if isFavorite v.id s.mem then (true, s)
    else
      let updatedFavorites := v :: s.mem
      (true, { mem := updatedFavorites, doc := updatedFavorites })

/-- `removeFavorite` (lines 145-160): filters the id out and returns `true`
(the operation-success flag). -/
def removeFavorite (videoId : String) (s : FavoritesStore) :
    Bool × FavoritesStore :=
  let updatedFavorites := s.mem.filter fun video => video.id ≠ videoId
  (true, { mem := updatedFavorites, doc := updatedFavorites })

/-- `toggleFavorite` (lines 163-169): remove when present, add when absent,
returning whatever the called operation returns. -/
def toggleFavorite (video : Video) (s : FavoritesStore) :
    Bool × FavoritesStore :=
  if isFavorite video.id s.mem then removeFavorite video.id s
  else addFavorite (some video) s

/-- `addToHistory` (lines 212-240): rejects a null video or falsy id with
`false`; otherwise drops entries with the same id, prepends the stamped
entry, `slice(0, 50)`, and persists. -/
def addToHistory (video : Option Video) (now : Nat) (s : HistoryStore) :
    Bool × HistoryStore :=
  match video with
  | none => (false, s)
  | some v =>
    if v.id = "" then (false, s)
    else
      let filteredHistory := s.mem.filter fun item => item.video.id ≠ v.id
      let limitedHistory :=
        (({ video := v, watchedAt := now } : HistoryEntry) :: filteredHistory).take 50
      (true, { mem := limitedHistory, doc := limitedHistory })

/-- `updateSettings` (lines 299-313): `{...settings, ...newSettings}`. -/
def updateSettings (newSettings : SettingsPatch) (settings : Settings) :
    Settings :=
  { autoplay := newSettings.autoplay.getD settings.autoplay
    darkMode := newSettings.darkMode.getD settings.darkMode
    downloadQuality := newSettings.downloadQuality.getD settings.downloadQuality
    pushNotifications := newSettings.pushNotifications.getD settings.pushNotifications }

end Hooks

namespace PF

/-! Embedding of `src/frontend/paperbites-frontend/hooks/useStorage.js`
(the second favorites variant). `isFavorite` and `addFavorite` are verbatim
the same code as in `Hooks`; `removeFavorite` and `toggleFavorite` differ. -/

/-- `isFavorite` (lines 43-45). -/
def isFavorite (videoId : String) (favorites : List Video) : Bool :=
  favorites.any fun video => video.id = videoId

/-- `addFavorite` (lines 48-68): identical to the `Hooks` variant. -/
def addFavorite (video : Option Video) (s : FavoritesStore) :
    Bool × FavoritesStore :=
  match video with
  | none => (false, s)
  | some v =>
    if v.id = "" then (false, s)
    else if isFavorite v.id s.mem then (true, s)
    else
      let updatedFavorites := v :: s.mem
      (true, { mem := updatedFavorites, doc := updatedFavorites })

/-- `removeFavorite` (lines 71-86): filters the id out and returns `false`
("no longer a favorite"). -/
def removeFavorite (videoId : String) (s : FavoritesStore) :
    Bool × FavoritesStore :=
  let updatedFavorites := s.mem.filter fun video => video.id ≠ videoId
  (false, { mem := updatedFavorites, doc := updatedFavorites })

/-- `toggleFavorite` (lines 89-99): a null video or falsy id short-circuits to
`isFavorite(video?.id || '')` with no mutation; otherwise remove when present,
add when absent. -/
def toggleFavorite (video : Option Video) (s : FavoritesStore) :
    Bool × FavoritesStore :=
  match video with
  | none => (isFavorite "" s.mem, s)
  | some v =>
    if v.id = "" then (isFavorite "" s.mem, s)
    else if isFavorite v.id s.mem then removeFavorite v.id s
    else addFavorite (some v) s

end PF

namespace Storage

/-! Embedding of the storage service module (`services/storage.js`, the
second file of `src/unnamed/part_013`): stateless functions that read the
whole persisted document, transform it, and write it back. -/

/-- `getRecentSearches` (lines 55-63): `null` → `[]`, a thrown read or parse
error is caught → `[]`. -/
def getRecentSearches (read : StorageRead)
    (parse : String → Option (List String)) : List String :=
  match read with
  | .failure _ => []
  | .absent => []
  | .value raw =>
    match parse raw with
    | none => []
    | some searches => searches

/-- `getFavoriteVideos` (lines 113-121). -/
def getFavoriteVideos (read : StorageRead)
    (parse : String → Option (List Video)) : List Video :=
  match read with
  | .failure _ => []
  | .absent => []
  | .value raw =>
    match parse raw with
    | none => []
    | some favs => favs

/-- `addFavoriteVideo` (lines 71-86): reads the current document and writes
the prepended list only when the id is not already present. -/
def addFavoriteVideo (video : Video) (currentFavorites : List Video) :
    List Video :=
  if currentFavorites.any fun fav => fav.id = video.id then currentFavorites
  else video :: currentFavorites

/-- `getWatchHistory` (lines 174-182). -/
def getWatchHistory (read : StorageRead)
    (parse : String → Option (List HistoryEntry)) : List HistoryEntry :=
  match read with
  | .failure _ => []
  | .absent => []
  | .value raw =>
    match parse raw with
    | none => []
    | some hist => hist

/-- `addToWatchHistory` (lines 145-167): drop entries with the same id,
prepend `{...video, watchedAt: Date.now()}`, `slice(0, 50)`. -/
def addToWatchHistory (video : Video) (now : Nat)
    (history : List HistoryEntry) : List HistoryEntry :=
  let filteredHistory := history.filter fun item => item.video.id ≠ video.id
  let updatedHistory :=
    ({ video := video, watchedAt := now } : HistoryEntry) :: filteredHistory
  updatedHistory.take 50

/-- `getDefaultSettings` (lines 232-239). -/
def getDefaultSettings : Settings :=
  { autoplay := true
    darkMode := false
    downloadQuality := "medium"
    pushNotifications := true }

/-- `getAppSettings` (lines 217-225): `null` → defaults, a thrown read or
parse error is caught → defaults. -/
def getAppSettings (read : StorageRead)
    (parse : String → Option Settings) : Settings :=
  match read with
  | .failure _ => getDefaultSettings
  | .absent => getDefaultSettings
  | .value raw =>
    match parse raw with
    | none => getDefaultSettings
    | some settings => settings

end Storage

namespace Search

/-! Embedding of the recent-search bookkeeping in `handleSearch`
(`app/(tabs)/search.js`, lines 39-70). -/

/-- The recent-search update inside `handleSearch`: bail out on
all-whitespace input; only when the raw query is not already in the list,
prepend it and `slice(0, 5)`; an already-present query leaves the list
untouched. -/
def handleSearchRecent (searchQuery : String) (recentSearches : List String) :
    List String :=
  if jsTrim searchQuery = "" then recentSearches
  else if recentSearches.contains searchQuery then recentSearches
  else (searchQuery :: recentSearches).take 5

end Search

namespace Api

/-! Embedding of the catalog client (`services/api.js`). -/

/-- What the transport hands back for one request: a 2xx with a body, a
non-2xx status, or a thrown transport failure. -/
inductive HttpResult (α : Type) where
  | success (body : α)
  | httpError (status : Nat)
  | transportFailure (message : String)
  deriving Repr, DecidableEq

/-- The single JavaScript runtime error class used by the client: every
failure is `new Error(message)`, so the only per-error data is the message. -/
inductive JsError where
  | error (message : String)
  deriving Repr, DecidableEq

/-- The `name` property of the thrown object: `"Error"` for every error the
client constructs, whatever the HTTP status was. -/
def errorName : JsError → String
  | .error _ => "Error"

/-- The constructor name of the error at the `error` side of a result, the
piece of information a `catch`-site can branch on by type. -/
def resultErrorName {α : Type} : Except JsError α → Option String
  | .ok _ => none
  | .error e => some (errorName e)

/-- `fetchVideoById` (lines 93-108): a non-ok response throws
`new Error("API error: " + status)` — 404 included — and a transport failure
is re-thrown unchanged. -/
def fetchVideoById (resp : HttpResult Video) : Except JsError Video :=
  match resp with
  | .success v => .ok v
  | .httpError status => .error (.error ("API error: " ++ toString status))
  | .transportFailure msg => .error (.error msg)

end Api

namespace UseApi

/-! Embedding of the paginated feed in `hooks/useApi.js` (`useVideos`,
lines 74-130). `refetch` resolves to the JSON array on a 2xx response and to
`null` on any failure (after `fetchData` stored the error message); that
outcome is the `Option (List Video)` fed to the state transformer. The
catalog itself is a plain list, so the page a request returns is
`(catalog.drop offset).take limit`. -/

/-- The `useVideos` React state: `videos`, `page`, `hasMore`, plus the
`loading` and `error` cells owned by the underlying `useApi`. -/
structure FeedState where
  videos : List Video
  page : Nat
  hasMore : Bool
  loading : Bool
  error : Option String
  deriving Repr, DecidableEq

/-- The page the catalog service returns for `limit`/`offset`. -/
def fetchPage (catalog : List Video) (limit offset : Nat) : List Video :=
  (catalog.drop offset).take limit

/-- `loadInitial` (lines 88-98) on the success path: reset `page` to 0,
fetch offset 0 (`fetchData` clears `error` and finally clears `loading`),
replace `videos`, recompute `hasMore = result.length >= pageSize`. -/
def loadInitial (catalog : List Video) (pageSize : Nat) (st : FeedState) :
    FeedState :=
  let result := fetchPage catalog pageSize 0
  { st with
    page := 0
    videos := result
    hasMore := pageSize ≤ result.length
    loading := false
    error := none }

/-- `loadMore` (lines 101-114) as a function of the resolved fetch outcome:
dropped when `loading` or `!hasMore`; on `null` the state keeps the error
message `fetchData` stored; on success the page is appended, `hasMore`
recomputed and `page` advanced. -/
def loadMore (result : Option (List Video)) (pageSize : Nat)
    (st : FeedState) : FeedState :=
  if st.loading then st
  else if !st.hasMore then st
  else
    match result with
    | none => { st with loading := false, error := some "HTTP error" }
    | some items =>
      { st with
        videos := st.videos ++ items
        hasMore := pageSize ≤ items.length
        page := st.page + 1
        loading := false
        error := none }

/-- `loadMore` against a catalog that answers every request: the next page is
fetched at `offset = (page + 1) * pageSize`. -/
def loadMoreC (catalog : List Video) (pageSize : Nat) (st : FeedState) :
    FeedState :=
  loadMore (some (fetchPage catalog pageSize ((st.page + 1) * pageSize)))
    pageSize st

/-! ### Event-level model of `loadMore` reentrancy

Under the single-threaded cooperative execution model, a `loadMore` call is
atomic up to the suspension point inside `fetch`: it either returns at the
`if (loading || !hasMore) return;` guard, or flips `loading` on and issues
the request for `offset = (page + 1) * pageSize`. The response is a later
event. `FeedTrace` carries the React state, the offset of the in-flight
request, and a ghost log of the offsets whose pages were appended
(most recent first). -/

/-- Feed state plus the in-flight request and the ghost append log. -/
structure FeedTrace where
  st : FeedState
  inflight : Option Nat
  appendedOffsets : List Nat
  deriving Repr, DecidableEq

/-- An event visible to the feed: a `loadMore` call, or the in-flight fetch
resolving (`some items` on 2xx, `none` on failure). -/
inductive FeedEvent where
  | callLoadMore
  | fetchResolves (result : Option (List Video))
  deriving Repr, DecidableEq

/-- One event step. `callLoadMore` while `loading` (or after `hasMore` went
false) is a silent drop: the trace is unchanged and nothing is queued.
Otherwise it starts the request for the next page. A resolution with no
request in flight is impossible at runtime and modelled as a no-op. -/
def stepFeed (pageSize : Nat) (e : FeedEvent) (tr : FeedTrace) : FeedTrace :=
  match e with
  | .callLoadMore =>
    if tr.st.loading then tr
    else if !tr.st.hasMore then tr
    else
      { tr with
        st := { tr.st with loading := true, error := none }
        inflight := some ((tr.st.page + 1) * pageSize) }
  | .fetchResolves result =>
    match tr.inflight with
    | none => tr
    | some off =>
      match result with
      | none =>
        { tr with
          st := { tr.st with loading := false, error := some "HTTP error" }
          inflight := none }
      | some items =>
        { tr with
          st :=
            { tr.st with
              videos := tr.st.videos ++ items
              hasMore := pageSize ≤ items.length
              page := tr.st.page + 1
              loading := false
              error := none }
          inflight := none
          appendedOffsets := off :: tr.appendedOffsets }

/-- Run a list of events, oldest first. -/
def runFeed (pageSize : Nat) (events : List FeedEvent) (tr : FeedTrace) :
    FeedTrace :=
  events.foldl (fun t e => stepFeed pageSize e t) tr

/-- Trace invariant: every appended offset is at most `page * pageSize`, the
append log is strictly decreasing, the in-flight request (if any) targets
the next page, and `loading` is set exactly while a request is in flight. -/
def FeedInv (pageSize : Nat) (tr : FeedTrace) : Prop :=
  (∀ o ∈ tr.appendedOffsets, o ≤ tr.st.page * pageSize) ∧
  tr.appendedOffsets.Pairwise (· > ·) ∧
  (tr.inflight = none ∨ tr.inflight = some ((tr.st.page + 1) * pageSize)) ∧
  tr.st.loading = tr.inflight.isSome

instance (pageSize : Nat) (tr : FeedTrace) : Decidable (FeedInv pageSize tr) := by
  unfold FeedInv
  infer_instance

end UseApi

/-! ### Sample inputs used by the closed witness theorems. -/

/-- A small catalog of four distinct videos. -/
def sampleCatalog : List Video :=
  (List.range 4).map fun i => ⟨toString i, ""⟩

/-- A feed state after two full pages of size 2: the boundary page was exactly
full, so `hasMore` is still `true` although the catalog is exhausted. -/
def sampleFeedState : UseApi.FeedState :=
  { videos := [], page := 1, hasMore := true, loading := false, error := none }

/-- A quiescent feed trace: nothing loaded, nothing in flight. -/
def sampleTrace : UseApi.FeedTrace :=
  { st := { videos := [], page := 0, hasMore := true, loading := false, error := none }
    inflight := none
    appendedOffsets := [] }

/-- An event interleaving with a reentrant `loadMore` call while the first
request is still in flight. -/
def sampleEvents : List UseApi.FeedEvent :=
  [UseApi.FeedEvent.callLoadMore,
   UseApi.FeedEvent.callLoadMore,
   UseApi.FeedEvent.fetchResolves (some [⟨"0", ""⟩, ⟨"1", ""⟩]),
   UseApi.FeedEvent.callLoadMore,
   UseApi.FeedEvent.fetchResolves (some [⟨"2", ""⟩])]

/-! ### Helper lemmas shared by the claim theorems. -/

/-- Truncating a nonempty list keeps its head. -/
theorem head?_take_succ {α : Type} (a : α) (l : List α) (n : Nat) :
    ((a :: l).take (n + 1)).head? = some a := by
  rw [List.take_succ_cons]
  rfl

/-- Prepending one match to a match-free list and truncating leaves exactly
one match. -/
theorem countP_take_cons {α : Type} (p : α → Bool) (a : α) (l : List α)
    (n : Nat) (ha : p a = true) (hl : l.countP p = 0) :
    ((a :: l).take (n + 1)).countP p = 1 := by
  have h := (List.take_sublist n l).countP_le p
  rw [hl, Nat.le_zero] at h
  rw [List.take_succ_cons, List.countP_cons, ha]
  simp [h]

/-- A list filtered by the complement of `p` contains no `p`-matches. -/
theorem countP_filter_ne {α : Type} (p q : α → Bool) (l : List α)
    (h : ∀ x, q x = true → p x = false) : (l.filter q).countP p = 0 := by
  rw [List.countP_eq_zero]
  intro a ha
  simp [h a (List.mem_filter.mp ha).2]

/-- Filtering out an element that is present strictly shrinks the list. -/
theorem length_filter_ne_lt {α : Type} [DecidableEq α] (s : α) (l : List α)
    (hs : s ∈ l) : (l.filter fun x => x ≠ s).length < l.length := by
  rw [List.length_filter_lt_length_iff_exists]
  exact ⟨s, hs, by simp⟩

/-- Canonical shape facts about one `addToWatchHistory` call on any prior
document: exactly one entry carries the added id, it sits at the front with
the call's timestamp, and the result is at most 50 entries long. -/
theorem addToWatchHistory_spec (v : Video) (t : Nat) (l : List HistoryEntry) :
    (Storage.addToWatchHistory v t l).countP (fun e => e.video.id = v.id) = 1 ∧
    (Storage.addToWatchHistory v t l).head? = some ⟨v, t⟩ ∧
    (Storage.addToWatchHistory v t l).length ≤ 50 := by
  unfold Storage.addToWatchHistory
  refine ⟨?_, ?_, ?_⟩
  · exact countP_take_cons _ _ _ 49 (by simp)
      (countP_filter_ne _ _ l fun e he => by
        simp only [decide_eq_true_eq] at he
        simp [he])
  · exact head?_take_succ _ _ 49
  · exact List.length_take_le _ _

/-- On the success path the `Hooks` history mutator computes exactly the
storage-service list transformation. -/
theorem addToHistory_mem_eq (v : Video) (hv : v.id ≠ "") (t : Nat)
    (s : HistoryStore) :
    (Hooks.addToHistory (some v) t s).2.mem =
      Storage.addToWatchHistory v t s.mem := by
  simp [Hooks.addToHistory, Storage.addToWatchHistory, hv]

/-! ### Claim C1: the two favorite-toggle variants. -/

/-- C1 counterexample: in the `frontend/hooks/useStorage.js` variant, the
second `toggle(A)` empties the list but returns `true` (the remove
operation's success flag), not the `false` the claim requires. -/
theorem claim_C1_counterexample :
    (Hooks.toggleFavorite ⟨"a", "A"⟩
        { mem := [⟨"a", "A"⟩], doc := [⟨"a", "A"⟩] }).1 = true ∧
    (Hooks.toggleFavorite ⟨"a", "A"⟩
        { mem := [⟨"a", "A"⟩], doc := [⟨"a", "A"⟩] }).2.mem = [] := by
  exact ⟨by decide, by decide⟩

/-- C1 amended: starting from an empty favorites collection, both variants
make `toggle(A)` return `true` with the list becoming `[A]`, and a second
`toggle(A)` empties the list; the `paperbites-frontend` variant then returns
`false` ("is now a favorite") as the claim states, while the
`frontend/hooks` variant returns `true` (operation success). -/
theorem claim_C1_amended (v : Video) (hv : v.id ≠ "") :
    PF.toggleFavorite (some v) { mem := [], doc := [] } =
      (true, { mem := [v], doc := [v] }) ∧
    PF.toggleFavorite (some v) { mem := [v], doc := [v] } =
      (false, { mem := [], doc := [] }) ∧
    Hooks.toggleFavorite v { mem := [], doc := [] } =
      (true, { mem := [v], doc := [v] }) ∧
    Hooks.toggleFavorite v { mem := [v], doc := [v] } =
      (true, { mem := [], doc := [] }) := by
  refine ⟨?_, ?_, ?_, ?_⟩ <;>
    simp [PF.toggleFavorite, PF.isFavorite, PF.addFavorite, PF.removeFavorite,
      Hooks.toggleFavorite, Hooks.isFavorite, Hooks.addFavorite,
      Hooks.removeFavorite, hv]

/-- C1 amended, witnessed at the concrete video `⟨"a", "A"⟩`. -/
theorem claim_C1_amended_witness :
    (⟨"a", "A"⟩ : Video).id ≠ "" ∧
    (PF.toggleFavorite (some ⟨"a", "A"⟩) { mem := [], doc := [] } =
      (true, { mem := [⟨"a", "A"⟩], doc := [⟨"a", "A"⟩] }) ∧
    PF.toggleFavorite (some ⟨"a", "A"⟩)
        { mem := [⟨"a", "A"⟩], doc := [⟨"a", "A"⟩] } =
      (false, { mem := [], doc := [] }) ∧
    Hooks.toggleFavorite ⟨"a", "A"⟩ { mem := [], doc := [] } =
      (true, { mem := [⟨"a", "A"⟩], doc := [⟨"a", "A"⟩] }) ∧
    Hooks.toggleFavorite ⟨"a", "A"⟩
        { mem := [⟨"a", "A"⟩], doc := [⟨"a", "A"⟩] } =
      (true, { mem := [], doc := [] })) :=
  ⟨by decide, claim_C1_amended ⟨"a", "A"⟩ (by decide)⟩

/-! ### Claim C4: recent-search insertion. -/

/-- C4 counterexample: `addRecentSearch` stores the raw term `"a "`;
the trimmed term `"a"` is never what is prepended — trimming is only the
emptiness test. And the `handleSearch` call site leaves an already-present
query where it is instead of moving it to the front. -/
theorem claim_C4_counterexample :
    Hooks.addRecentSearch "a " [] = ["a "] ∧
    jsTrim "a " = "a" ∧
    Hooks.addRecentSearch "a " [] ≠ ["a"] ∧
    Search.handleSearchRecent "b" ["a", "b"] = ["a", "b"] := by
  exact ⟨by decide, by decide, by decide, by decide⟩

/-- C4 amended: `addRecentSearch` uses trimming only to reject
all-whitespace input (a no-op); otherwise it stores the raw untrimmed term,
removes exact-match duplicates of that raw term, prepends it, and truncates
to 10 — so a list within the cap stays within the cap, the stored term
occurs exactly once and at the front, and re-adding an existing raw term
does not grow the list. The `handleSearch` call site caps at 5 and leaves
the list unchanged when the raw query is already present. -/
theorem claim_C4_amended (term : String) (rs : List String) :
    (jsTrim term = "" → Hooks.addRecentSearch term rs = rs) ∧
    (rs.length ≤ 10 → (Hooks.addRecentSearch term rs).length ≤ 10) ∧
    (jsTrim term ≠ "" →
      (Hooks.addRecentSearch term rs).countP (fun x => x = term) = 1 ∧
      (Hooks.addRecentSearch term rs).head? = some term) ∧
    (jsTrim term ≠ "" → term ∈ rs →
      (Hooks.addRecentSearch term rs).length ≤ rs.length) ∧
    (jsTrim term = "" → Search.handleSearchRecent term rs = rs) ∧
    (term ∈ rs → Search.handleSearchRecent term rs = rs) ∧
    (rs.length ≤ 5 → (Search.handleSearchRecent term rs).length ≤ 5) := by
  refine ⟨?_, ?_, ?_, ?_, ?_, ?_, ?_⟩
  · intro h
    simp [Hooks.addRecentSearch, h]
  · intro hcap
    by_cases h : jsTrim term = ""
    · simpa [Hooks.addRecentSearch, h] using hcap
    · simp only [Hooks.addRecentSearch, h, if_neg]
      exact List.length_take_le _ _
  · intro h
    constructor
    · simp only [Hooks.addRecentSearch, h, if_neg]
      exact countP_take_cons _ _ _ 9 (by simp)
        (countP_filter_ne _ _ rs fun x hx => by
          simp only [decide_eq_true_eq] at hx
          simp [hx])
    · simp only [Hooks.addRecentSearch, h, if_neg]
      exact head?_take_succ _ _ 9
  · intro h hmem
    have he : Hooks.addRecentSearch term rs =
        (term :: rs.filter fun x => x ≠ term).take 10 := by
      simp [Hooks.addRecentSearch, h]
    have h1 := List.length_take_le' 10 (term :: rs.filter fun x => x ≠ term)
    have h2 := length_filter_ne_lt term rs hmem
    rw [he]
    simp only [List.length_cons] at h1
    omega
  · intro h
    simp [Search.handleSearchRecent, h]
  · intro hmem
    by_cases h : jsTrim term = ""
    · simp [Search.handleSearchRecent, h]
    · simp [Search.handleSearchRecent, h, hmem]
  · intro hcap
    by_cases h : jsTrim term = ""
    · simpa [Search.handleSearchRecent, h] using hcap
    · by_cases hmem : term ∈ rs
      · simpa [Search.handleSearchRecent, h, hmem] using hcap
      · have h4 := List.length_take_le 4 rs
        simp [Search.handleSearchRecent, h, hmem]

/-- C4 amended, witnessed at `"a "` over the list `["b", "a "]`. -/
theorem claim_C4_amended_witness :
    (jsTrim "a " ≠ "" ∧ "a " ∈ ["b", "a "] ∧
      (["b", "a "] : List String).length ≤ 10) ∧
    ((jsTrim "a " = "" → Hooks.addRecentSearch "a " ["b", "a "] = ["b", "a "]) ∧
    ((["b", "a "] : List String).length ≤ 10 →
      (Hooks.addRecentSearch "a " ["b", "a "]).length ≤ 10) ∧
    (jsTrim "a " ≠ "" →
      (Hooks.addRecentSearch "a " ["b", "a "]).countP (fun x => x = "a ") = 1 ∧
      (Hooks.addRecentSearch "a " ["b", "a "]).head? = some "a ") ∧
    (jsTrim "a " ≠ "" → "a " ∈ ["b", "a "] →
      (Hooks.addRecentSearch "a " ["b", "a "]).length ≤
        (["b", "a "] : List String).length) ∧
    (jsTrim "a " = "" → Search.handleSearchRecent "a " ["b", "a "] = ["b", "a "]) ∧
    ("a " ∈ ["b", "a "] → Search.handleSearchRecent "a " ["b", "a "] = ["b", "a "]) ∧
    ((["b", "a "] : List String).length ≤ 5 →
      (Search.handleSearchRecent "a " ["b", "a "]).length ≤ 5)) :=
  ⟨⟨by decide, by decide, by decide⟩, claim_C4_amended "a " ["b", "a "]⟩

/-! ### Claim C5: duplicate keys and move-to-front on insertion. -/

/-- C5 counterexample: `addFavorite` of an already-favorited id is a no-op:
with favorites `[B, A]`, re-adding `A` leaves `[B, A]` — the entry is not
moved to the front; the storage-service `addFavoriteVideo` behaves the same. -/
theorem claim_C5_counterexample :
    (Hooks.addFavorite (some ⟨"a", "A"⟩)
        { mem := [⟨"b", "B"⟩, ⟨"a", "A"⟩], doc := [⟨"b", "B"⟩, ⟨"a", "A"⟩] }) =
      (true, { mem := [⟨"b", "B"⟩, ⟨"a", "A"⟩], doc := [⟨"b", "B"⟩, ⟨"a", "A"⟩] }) ∧
    (Hooks.addFavorite (some ⟨"a", "A"⟩)
        { mem := [⟨"b", "B"⟩, ⟨"a", "A"⟩], doc := [⟨"b", "B"⟩, ⟨"a", "A"⟩] }).2.mem.head? ≠
      some ⟨"a", "A"⟩ ∧
    Storage.addFavoriteVideo ⟨"a", "A"⟩ [⟨"b", "B"⟩, ⟨"a", "A"⟩] =
      [⟨"b", "B"⟩, ⟨"a", "A"⟩] := by
  exact ⟨by decide, by decide, by decide⟩

/-- C5 amended: History insertion does remove the prior occurrence before
prepending (front placement, single occurrence), and no collection ever
gains a duplicate key — but Favorites reaches this differently: adding an
already-favorited id is a no-op that leaves the entry in place rather than
moving it to the front. -/
theorem claim_C5_amended (v : Video) (s : FavoritesStore) (doc : List Video)
    (t : Nat) (l : List HistoryEntry) :
    (v.id ≠ "" → Hooks.isFavorite v.id s.mem = true →
      Hooks.addFavorite (some v) s = (true, s)) ∧
    (doc.any (fun fav => fav.id = v.id) = true →
      Storage.addFavoriteVideo v doc = doc) ∧
    ((s.mem.map Video.id).Nodup →
      ((Hooks.addFavorite (some v) s).2.mem.map Video.id).Nodup) ∧
    (Storage.addToWatchHistory v t l).head? = some ⟨v, t⟩ ∧
    (Storage.addToWatchHistory v t l).countP (fun e => e.video.id = v.id) = 1 := by
  refine ⟨?_, ?_, ?_, (addToWatchHistory_spec v t l).2.1,
    (addToWatchHistory_spec v t l).1⟩
  · intro hid h
    simp [Hooks.addFavorite, hid, h]
  · intro h
    simp only [Storage.addFavoriteVideo, h, if_pos]
  · intro hnd
    by_cases hid : v.id = ""
    · simpa [Hooks.addFavorite, hid] using hnd
    · by_cases hfav : Hooks.isFavorite v.id s.mem
      · simpa [Hooks.addFavorite, hid, hfav] using hnd
      · have hnotmem : v.id ∉ s.mem.map Video.id := by
          simp only [Hooks.isFavorite, List.any_eq_true,
            decide_eq_true_eq] at hfav
          simp only [List.mem_map, not_exists, not_and]
          intro x hx hxid
          exact hfav ⟨x, hx, hxid⟩
        simp only [Hooks.addFavorite, hid, hfav, if_neg]
        simpa [Hooks.addFavorite, hid, hfav] using List.Nodup.cons hnotmem hnd

/-- C5 amended, witnessed at re-adding `A` over the favorites `[B, A]` and a
history re-add of the same video. -/
theorem claim_C5_amended_witness :
    ((⟨"a", "A"⟩ : Video).id ≠ "" ∧
      Hooks.isFavorite (⟨"a", "A"⟩ : Video).id [⟨"b", "B"⟩, ⟨"a", "A"⟩] = true ∧
      ([⟨"b", "B"⟩, ⟨"a", "A"⟩] : List Video).any
        (fun fav => fav.id = (⟨"a", "A"⟩ : Video).id) = true ∧
      (([⟨"b", "B"⟩, ⟨"a", "A"⟩] : List Video).map Video.id).Nodup) ∧
    (Hooks.addFavorite (some ⟨"a", "A"⟩)
        { mem := [⟨"b", "B"⟩, ⟨"a", "A"⟩], doc := [⟨"b", "B"⟩, ⟨"a", "A"⟩] } =
      (true, { mem := [⟨"b", "B"⟩, ⟨"a", "A"⟩], doc := [⟨"b", "B"⟩, ⟨"a", "A"⟩] }) ∧
      Storage.addFavoriteVideo ⟨"a", "A"⟩ [⟨"b", "B"⟩, ⟨"a", "A"⟩] =
        [⟨"b", "B"⟩, ⟨"a", "A"⟩] ∧
      (((Hooks.addFavorite (some ⟨"a", "A"⟩)
          { mem := [⟨"b", "B"⟩, ⟨"a", "A"⟩],
            doc := [⟨"b", "B"⟩, ⟨"a", "A"⟩] }).2.mem.map Video.id).Nodup) ∧
      (Storage.addToWatchHistory ⟨"a", "A"⟩ 7 [⟨⟨"a", "A"⟩, 3⟩]).head? =
        some ⟨⟨"a", "A"⟩, 7⟩ ∧
      (Storage.addToWatchHistory ⟨"a", "A"⟩ 7 [⟨⟨"a", "A"⟩, 3⟩]).countP
        (fun e => e.video.id = (⟨"a", "A"⟩ : Video).id) = 1) := by
  have h := claim_C5_amended ⟨"a", "A"⟩
    { mem := [⟨"b", "B"⟩, ⟨"a", "A"⟩], doc := [⟨"b", "B"⟩, ⟨"a", "A"⟩] }
    [⟨"b", "B"⟩, ⟨"a", "A"⟩] 7 [⟨⟨"a", "A"⟩, 3⟩]
  exact ⟨⟨by decide, by decide, by decide, by decide⟩,
    h.1 (by decide) (by decide), h.2.1 (by decide),
    h.2.2.1 (by decide), h.2.2.2.1, h.2.2.2.2⟩

/-! ### Claim C6: reads of absent or corrupt documents. -/

/-- C6: reading any of the four persisted documents when the read throws,
the document is absent, or the JSON fails to parse yields the empty
collection (the default record for app-settings) — the functions are total,
so no exception reaches the caller; in particular a first read of
watch-history with no stored document returns the empty sequence. -/
theorem claim_C6 (raw msg : String)
    (ph : String → Option (List HistoryEntry))
    (pf : String → Option (List Video))
    (pr : String → Option (List String))
    (ps : String → Option Settings) :
    Storage.getWatchHistory .absent ph = [] ∧
    Storage.getWatchHistory (.failure msg) ph = [] ∧
    (ph raw = none → Storage.getWatchHistory (.value raw) ph = []) ∧
    Storage.getFavoriteVideos .absent pf = [] ∧
    Storage.getFavoriteVideos (.failure msg) pf = [] ∧
    (pf raw = none → Storage.getFavoriteVideos (.value raw) pf = []) ∧
    Storage.getRecentSearches .absent pr = [] ∧
    Storage.getRecentSearches (.failure msg) pr = [] ∧
    (pr raw = none → Storage.getRecentSearches (.value raw) pr = []) ∧
    Storage.getAppSettings .absent ps = Storage.getDefaultSettings ∧
    Storage.getAppSettings (.failure msg) ps = Storage.getDefaultSettings ∧
    (ps raw = none →
      Storage.getAppSettings (.value raw) ps = Storage.getDefaultSettings) := by
  refine ⟨rfl, rfl, fun h => ?_, rfl, rfl, fun h => ?_, rfl, rfl, fun h => ?_,
    rfl, rfl, fun h => ?_⟩ <;>
    simp [Storage.getWatchHistory, Storage.getFavoriteVideos,
      Storage.getRecentSearches, Storage.getAppSettings, h]

/-- C6 witnessed with a parser that rejects the stored bytes. -/
theorem claim_C6_witness :
    ((fun _ => (none : Option (List HistoryEntry))) "x" = none ∧
      (fun _ => (none : Option (List Video))) "x" = none ∧
      (fun _ => (none : Option (List String))) "x" = none ∧
      (fun _ => (none : Option Settings)) "x" = none) ∧
    (Storage.getWatchHistory .absent (fun _ => none) = [] ∧
      Storage.getWatchHistory (.value "x") (fun _ => none) = [] ∧
      Storage.getAppSettings .absent (fun _ => none) =
        Storage.getDefaultSettings ∧
      Storage.getAppSettings (.value "x") (fun _ => none) =
        Storage.getDefaultSettings) := by
  have h := claim_C6 "x" "m" (fun _ => none) (fun _ => none)
    (fun _ => none) (fun _ => none)
  exact ⟨⟨rfl, rfl, rfl, rfl⟩, h.1, h.2.2.1 rfl, h.2.2.2.2.2.2.2.2.2.1,
    h.2.2.2.2.2.2.2.2.2.2.2 rfl⟩

/-! ### Claim C7: settings update frame condition. -/

/-- C7: `updateSettings({darkMode: true})` merges field-by-field: the result
is the prior record with `darkMode` set and `autoplay`, `downloadQuality`
and `pushNotifications` unchanged. -/
theorem claim_C7 (s : Settings) :
    Hooks.updateSettings { darkMode := some true } s =
      { autoplay := s.autoplay
        darkMode := true
        downloadQuality := s.downloadQuality
        pushNotifications := s.pushNotifications } := rfl

/-! ### Claim C8: the error thrown for an absent id. -/

/-- C8 counterexample: the failure `fetchVideoById` produces for a 404 is a
value of the same single error class (`name = "Error"`) as the failure for
any other non-2xx status; there is no NotFound error distinguishable by
type, only the message text differs. -/
theorem claim_C8_counterexample :
    Api.resultErrorName (Api.fetchVideoById (.httpError 404)) = some "Error" ∧
    Api.resultErrorName (Api.fetchVideoById (.httpError 500)) = some "Error" ∧
    Api.resultErrorName (Api.fetchVideoById (.httpError 404)) =
      Api.resultErrorName (Api.fetchVideoById (.httpError 500)) ∧
    Api.fetchVideoById (.httpError 404) =
      .error (.error "API error: 404") := by
  exact ⟨rfl, rfl, rfl, rfl⟩

/-- C8 amended: `fetchVideoById` returns the body on a 2xx response; on 404 —
exactly as on every other non-2xx status — it fails with the one generic
error class, whose message embeds the status (`"API error: 404"`), and it
re-throws transport failures unchanged; a caller can therefore separate
"not found" from "retry" only by inspecting the message, not by error type. -/
theorem claim_C8_amended (s : Nat) (msg : String) (v : Video) :
    Api.fetchVideoById (.success v) = .ok v ∧
    Api.fetchVideoById (.httpError s) =
      .error (.error ("API error: " ++ toString s)) ∧
    Api.errorName (.error ("API error: " ++ toString s)) = "Error" ∧
    Api.fetchVideoById (.transportFailure msg) = .error (.error msg) :=
  ⟨rfl, rfl, rfl, rfl⟩

/-! ### Claim C10: invalid inputs to the add operations. -/

/-- C10: `addFavorite` and `addToHistory` called with a null video or a
video whose id is empty return `false` and leave the in-memory list and the
persisted document untouched. -/
theorem claim_C10 (v : Video) (hv : v.id = "") (sf : FavoritesStore)
    (sh : HistoryStore) (t : Nat) :
    Hooks.addFavorite none sf = (false, sf) ∧
    Hooks.addFavorite (some v) sf = (false, sf) ∧
    Hooks.addToHistory none t sh = (false, sh) ∧
    Hooks.addToHistory (some v) t sh = (false, sh) := by
  refine ⟨rfl, ?_, rfl, ?_⟩ <;>
    simp [Hooks.addFavorite, Hooks.addToHistory, hv]

/-- C10 witnessed at a video with an empty id over nonempty stores. -/
theorem claim_C10_witness :
    (⟨"", "E"⟩ : Video).id = "" ∧
    (Hooks.addFavorite none { mem := [⟨"a", "A"⟩], doc := [⟨"a", "A"⟩] } =
      (false, { mem := [⟨"a", "A"⟩], doc := [⟨"a", "A"⟩] }) ∧
    Hooks.addFavorite (some ⟨"", "E"⟩)
        { mem := [⟨"a", "A"⟩], doc := [⟨"a", "A"⟩] } =
      (false, { mem := [⟨"a", "A"⟩], doc := [⟨"a", "A"⟩] }) ∧
    Hooks.addToHistory none 5 { mem := [⟨⟨"a", "A"⟩, 1⟩], doc := [⟨⟨"a", "A"⟩, 1⟩] } =
      (false, { mem := [⟨⟨"a", "A"⟩, 1⟩], doc := [⟨⟨"a", "A"⟩, 1⟩] }) ∧
    Hooks.addToHistory (some ⟨"", "E"⟩) 5
        { mem := [⟨⟨"a", "A"⟩, 1⟩], doc := [⟨⟨"a", "A"⟩, 1⟩] } =
      (false, { mem := [⟨⟨"a", "A"⟩, 1⟩], doc := [⟨⟨"a", "A"⟩, 1⟩] })) :=
  ⟨by decide, claim_C10 ⟨"", "E"⟩ (by decide)
    { mem := [⟨"a", "A"⟩], doc := [⟨"a", "A"⟩] }
    { mem := [⟨⟨"a", "A"⟩, 1⟩], doc := [⟨⟨"a", "A"⟩, 1⟩] } 5⟩

/-! ### Claim C3: adding the same video to the history twice. -/

/-- C3: after two consecutive `History.add(v)` calls — first stamped `t1`,
then `t2` — over any prior history, exactly one entry carries `v`'s id, it
sits at the front with the second call's timestamp `t2`, and the history
holds at most 50 entries; this holds for the storage-service
`addToWatchHistory` and for the hook `addToHistory`. -/
theorem claim_C3 (v : Video) (hv : v.id ≠ "") (t1 t2 : Nat)
    (doc : List HistoryEntry) (s : HistoryStore) :
    ((Storage.addToWatchHistory v t2
        (Storage.addToWatchHistory v t1 doc)).countP
        (fun e => e.video.id = v.id) = 1 ∧
      (Storage.addToWatchHistory v t2
        (Storage.addToWatchHistory v t1 doc)).head? = some ⟨v, t2⟩ ∧
      (Storage.addToWatchHistory v t2
        (Storage.addToWatchHistory v t1 doc)).length ≤ 50) ∧
    ((Hooks.addToHistory (some v) t2
        (Hooks.addToHistory (some v) t1 s).2).2.mem.countP
        (fun e => e.video.id = v.id) = 1 ∧
      (Hooks.addToHistory (some v) t2
        (Hooks.addToHistory (some v) t1 s).2).2.mem.head? = some ⟨v, t2⟩ ∧
      (Hooks.addToHistory (some v) t2
        (Hooks.addToHistory (some v) t1 s).2).2.mem.length ≤ 50) := by
  refine ⟨addToWatchHistory_spec v t2 _, ?_⟩
  rw [addToHistory_mem_eq v hv t2 _]
  exact addToWatchHistory_spec v t2 _

/-- C3 witnessed at timestamps 3 then 7 over a one-entry history. -/
theorem claim_C3_witness :
    (⟨"a", "A"⟩ : Video).id ≠ "" ∧
    (((Storage.addToWatchHistory ⟨"a", "A"⟩ 7
        (Storage.addToWatchHistory ⟨"a", "A"⟩ 3 [⟨⟨"b", "B"⟩, 1⟩])).countP
        (fun e => e.video.id = (⟨"a", "A"⟩ : Video).id) = 1 ∧
      (Storage.addToWatchHistory ⟨"a", "A"⟩ 7
        (Storage.addToWatchHistory ⟨"a", "A"⟩ 3 [⟨⟨"b", "B"⟩, 1⟩])).head? =
        some ⟨⟨"a", "A"⟩, 7⟩ ∧
      (Storage.addToWatchHistory ⟨"a", "A"⟩ 7
        (Storage.addToWatchHistory ⟨"a", "A"⟩ 3 [⟨⟨"b", "B"⟩, 1⟩])).length ≤ 50) ∧
    ((Hooks.addToHistory (some ⟨"a", "A"⟩) 7
        (Hooks.addToHistory (some ⟨"a", "A"⟩) 3
          { mem := [⟨⟨"b", "B"⟩, 1⟩], doc := [⟨⟨"b", "B"⟩, 1⟩] }).2).2.mem.countP
        (fun e => e.video.id = (⟨"a", "A"⟩ : Video).id) = 1 ∧
      (Hooks.addToHistory (some ⟨"a", "A"⟩) 7
        (Hooks.addToHistory (some ⟨"a", "A"⟩) 3
          { mem := [⟨⟨"b", "B"⟩, 1⟩], doc := [⟨⟨"b", "B"⟩, 1⟩] }).2).2.mem.head? =
        some ⟨⟨"a", "A"⟩, 7⟩ ∧
      (Hooks.addToHistory (some ⟨"a", "A"⟩) 7
        (Hooks.addToHistory (some ⟨"a", "A"⟩) 3
          { mem := [⟨⟨"b", "B"⟩, 1⟩],
            doc := [⟨⟨"b", "B"⟩, 1⟩] }).2).2.mem.length ≤ 50)) :=
  ⟨by decide, claim_C3 ⟨"a", "A"⟩ (by decide) 3 7 [⟨⟨"b", "B"⟩, 1⟩]
    { mem := [⟨⟨"b", "B"⟩, 1⟩], doc := [⟨⟨"b", "B"⟩, 1⟩] }⟩

/-! ### Claim C2: hasMore inference and a fetch past the end of data. -/

/-- C2: after the initial load, `hasMore` is `true` exactly when the fetched
page is full (its length can never exceed `pageSize`, so "at least" is
"exactly"); and a `loadMore` issued past the true end of data — while
`hasMore` is still `true` — receives the empty page, appends nothing, sets
`hasMore` to `false`, and does not set the error state. -/
theorem claim_C2 (catalog : List Video) (pageSize : Nat)
    (st : UseApi.FeedState) (h0 : st.loading = false) (h1 : st.hasMore = true)
    (h2 : 0 < pageSize) (h3 : catalog.length ≤ (st.page + 1) * pageSize) :
    ((UseApi.loadInitial catalog pageSize st).hasMore = true ↔
      (UseApi.fetchPage catalog pageSize 0).length = pageSize) ∧
    UseApi.fetchPage catalog pageSize ((st.page + 1) * pageSize) = [] ∧
    (UseApi.loadMoreC catalog pageSize st).videos = st.videos ∧
    (UseApi.loadMoreC catalog pageSize st).hasMore = false ∧
    (UseApi.loadMoreC catalog pageSize st).error = none := by
  have hempty :
      UseApi.fetchPage catalog pageSize ((st.page + 1) * pageSize) = [] := by
    simp [UseApi.fetchPage, List.drop_eq_nil_of_le h3]
  have hlm : UseApi.loadMoreC catalog pageSize st =
      { st with
        videos := st.videos
        hasMore := decide (pageSize ≤ 0)
        page := st.page + 1
        loading := false
        error := none } := by
    simp [UseApi.loadMoreC, UseApi.loadMore, hempty, h0, h1]
  refine ⟨?_, hempty, ?_, ?_, ?_⟩
  · simp only [UseApi.loadInitial, UseApi.fetchPage, List.drop_zero,
      List.length_take, decide_eq_true_eq]
    omega
  · rw [hlm]
  · rw [hlm]
    simp only [decide_eq_false_iff_not]
    omega
  · rw [hlm]

/-- C2 witnessed with a four-video catalog, page size 2 and the boundary
state after two full pages (`hasMore` still `true`, catalog exhausted). -/
theorem claim_C2_witness :
    (sampleFeedState.loading = false ∧ sampleFeedState.hasMore = true ∧
      (0 : Nat) < 2 ∧ sampleCatalog.length ≤ (sampleFeedState.page + 1) * 2) ∧
    (((UseApi.loadInitial sampleCatalog 2 sampleFeedState).hasMore = true ↔
        (UseApi.fetchPage sampleCatalog 2 0).length = 2) ∧
      UseApi.fetchPage sampleCatalog 2 ((sampleFeedState.page + 1) * 2) = [] ∧
      (UseApi.loadMoreC sampleCatalog 2 sampleFeedState).videos =
        sampleFeedState.videos ∧
      (UseApi.loadMoreC sampleCatalog 2 sampleFeedState).hasMore = false ∧
      (UseApi.loadMoreC sampleCatalog 2 sampleFeedState).error = none) :=
  ⟨⟨rfl, rfl, by decide, by decide⟩,
    claim_C2 sampleCatalog 2 sampleFeedState rfl rfl (by decide) (by decide)⟩

/-! ### Claim C9: no duplicate page under reentrant loadMore calls. -/

/-- Every event step preserves the feed-trace invariant. -/
theorem stepFeed_preserves_inv (pageSize : Nat) (hps : 0 < pageSize)
    (e : UseApi.FeedEvent) (tr : UseApi.FeedTrace)
    (hinv : UseApi.FeedInv pageSize tr) :
    UseApi.FeedInv pageSize (UseApi.stepFeed pageSize e tr) := by
  obtain ⟨h1, h2, h3, h4⟩ := hinv
  cases e with
  | callLoadMore =>
    cases hl : tr.st.loading with
    | true =>
      have hstep : UseApi.stepFeed pageSize .callLoadMore tr = tr := by
        simp [UseApi.stepFeed, hl]
      rw [hstep]
      exact ⟨h1, h2, h3, h4⟩
    | false =>
      cases hm : tr.st.hasMore with
      | false =>
        have hstep : UseApi.stepFeed pageSize .callLoadMore tr = tr := by
          simp [UseApi.stepFeed, hl, hm]
        rw [hstep]
        exact ⟨h1, h2, h3, h4⟩
      | true =>
        have hstep : UseApi.stepFeed pageSize .callLoadMore tr =
            { tr with
              st := { tr.st with loading := true, error := none }
              inflight := some ((tr.st.page + 1) * pageSize) } := by
          simp [UseApi.stepFeed, hl, hm]
        rw [hstep]
        exact ⟨h1, h2, Or.inr rfl, rfl⟩
  | fetchResolves result =>
    cases hf : tr.inflight with
    | none =>
      have hstep : UseApi.stepFeed pageSize (.fetchResolves result) tr = tr := by
        simp [UseApi.stepFeed, hf]
      rw [hstep]
      exact ⟨h1, h2, h3, h4⟩
    | some off =>
      have hoff : off = (tr.st.page + 1) * pageSize := by
        rcases h3 with h3 | h3
        · rw [hf] at h3
          exact absurd h3 (by simp)
        · rw [hf] at h3
          exact Option.some.inj h3
      cases result with
      | none =>
        have hstep : UseApi.stepFeed pageSize (.fetchResolves none) tr =
            { tr with
              st := { tr.st with loading := false, error := some "HTTP error" }
              inflight := none } := by
          simp [UseApi.stepFeed, hf]
        rw [hstep]
        exact ⟨h1, h2, Or.inl rfl, rfl⟩
      | some items =>
        have hstep : UseApi.stepFeed pageSize (.fetchResolves (some items)) tr =
            { tr with
              st :=
                { tr.st with
                  videos := tr.st.videos ++ items
                  hasMore := pageSize ≤ items.length
                  page := tr.st.page + 1
                  loading := false
                  error := none }
              inflight := none
              appendedOffsets := off :: tr.appendedOffsets } := by
          simp [UseApi.stepFeed, hf]
        rw [hstep]
        have hlt : tr.st.page * pageSize < (tr.st.page + 1) * pageSize := by
          rw [Nat.succ_mul]
          exact Nat.lt_add_of_pos_right hps
        refine ⟨?_, ?_, Or.inl rfl, rfl⟩
        · intro o ho
          rcases List.mem_cons.mp ho with rfl | ho

          · rw [hoff]
          · exact le_trans (h1 o ho)
              (Nat.mul_le_mul_right pageSize (Nat.le_succ _))
        · refine List.Pairwise.cons ?_ h2
          intro o ho
          rw [hoff]
          exact lt_of_le_of_lt (h1 o ho) hlt

/-- Running any event sequence preserves the feed-trace invariant. -/
theorem runFeed_preserves_inv (pageSize : Nat) (hps : 0 < pageSize)
    (events : List UseApi.FeedEvent) (tr : UseApi.FeedTrace)
    (hinv : UseApi.FeedInv pageSize tr) :
    UseApi.FeedInv pageSize (UseApi.runFeed pageSize events tr) := by
  induction events generalizing tr with
  | nil => exact hinv
  | cons e es ih =>
    have h := stepFeed_preserves_inv pageSize hps e tr hinv
    simpa [UseApi.runFeed] using ih _ h

/-- C9: a `loadMore` call arriving while a fetch is in flight leaves the
trace unchanged (dropped, not queued), and along every interleaving of
`loadMore` calls and fetch resolutions from an invariant state, the offsets
of appended pages stay strictly decreasing in the ghost log — so no page is
ever fetched and appended twice. -/
theorem claim_C9 (pageSize : Nat) (hps : 0 < pageSize)
    (tr : UseApi.FeedTrace) (hinv : UseApi.FeedInv pageSize tr)
    (events : List UseApi.FeedEvent) :
    (tr.st.loading = true → UseApi.stepFeed pageSize .callLoadMore tr = tr) ∧
    UseApi.FeedInv pageSize (UseApi.runFeed pageSize events tr) ∧
    (UseApi.runFeed pageSize events tr).appendedOffsets.Nodup := by
  have hrun := runFeed_preserves_inv pageSize hps events tr hinv
  obtain ⟨-, hp, -, -⟩ := hrun
  refine ⟨fun hl => by simp [UseApi.stepFeed, hl],
    runFeed_preserves_inv pageSize hps events tr hinv, ?_⟩
  exact hp.imp fun hab => ne_of_gt hab

/-- C9 witnessed on a quiescent trace and an interleaving in which the
second `loadMore` call arrives while the first fetch is in flight. -/
theorem claim_C9_witness :
    ((0 : Nat) < 10 ∧ UseApi.FeedInv 10 sampleTrace) ∧
    ((sampleTrace.st.loading = true →
        UseApi.stepFeed 10 .callLoadMore sampleTrace = sampleTrace) ∧
      UseApi.FeedInv 10 (UseApi.runFeed 10 sampleEvents sampleTrace) ∧
      (UseApi.runFeed 10 sampleEvents sampleTrace).appendedOffsets.Nodup) :=
  ⟨⟨by decide, by decide⟩,
    claim_C9 10 (by decide) sampleTrace (by decide) sampleEvents⟩

end PaperBites
